import Mathlib

/-!
Shallow embedding of the call coordination component of the repository
(src/src/components/Call.tsx) together with the presence/signaling model it
relies on (the supabase realtime channel and the call_signals table created in
the migration shipped with the component).

The component is a React function component.  Its mutable state consists of the
useState hooks (isMuted, isVideoEnabled, isCallActive, isConnecting,
permissionError) and the refs (localVideoRef, remoteVideoRef,
peerConnectionRef, channelRef).  We embed that state as the structure
`CallState` below, every event handler installed by the component as a function
`CallState → CallState × List Action`, and the outside-world effects the
handlers perform (database inserts, data-channel sends, navigation, media
requests) as the inductive `Action`.
-/

namespace ManBoldHelp

/-- A participant identifier (a profile uuid, kept as a string). -/
abbrev UserId := String

/-- The `type` column of a row of the call_signals table.  The component only
ever inserts rows with type offer (createOffer, line 146) and ice-candidate
(onicecandidate, line 103); answer appears here because the specification's
SignalMessage kind includes it. -/
inductive SignalType
  | offer
  | answer
  | iceCandidate
deriving DecidableEq

/-- A row of the call_signals table: from_user, to_user, type, signal
(the serialized payload, opaque to the relay). -/
structure SignalMessage where
  from_user : UserId
  to_user : UserId
  type : SignalType
  signal : String
deriving DecidableEq

/-- Kind of a local media track. -/
inductive TrackKind
  | audio
  | video
deriving DecidableEq

/-- A local media track: its kind, its `enabled` flag (flipped by the toggles)
and whether `stop()` has been called on it. -/
structure MediaTrack where
  kind : TrackKind
  enabled : Bool
  stopped : Bool
deriving DecidableEq

/-- The peer connection state the component manipulates: the local and remote
session descriptions and whether `close()` has been called. -/
structure PeerConnection where
  localDescription : Option String
  remoteDescription : Option String
  closed : Bool
deriving DecidableEq

/-- `new RTCPeerConnection(...)` (line 78): fresh descriptions, not closed. -/
def newPeerConnection : PeerConnection :=
  { localDescription := none, remoteDescription := none, closed := false }

/-- `pc.close()`. -/
def closePC (pc : PeerConnection) : PeerConnection :=
  { pc with closed := true }

/-- A message arriving on the data channel, after the JSON parse of
`dataChannel.onmessage` (line 111): the handler only inspects `message.type`
and reacts to the value end-call. -/
inductive DataMsgType
  | endCall
  | other (t : String)
deriving DecidableEq

/-- The outside-world effects a handler performs. -/
inductive Action
  /-- `navigator.mediaDevices.getUserMedia(constraints)` with
  `audio: true, video: callType === 'video'` (lines 67-72). -/
  | requestMedia (audio : Bool) (video : Bool)
  /-- `supabase.from('call_signals').insert(...)` (lines 100, 143). -/
  | insertSignal (m : SignalMessage)
  /-- `channelRef.current.send(JSON.stringify(\x7b type: 'end-call' \x7d))`
  (line 176). -/
  | sendEndCallNotice
  /-- `navigate('/home')` (line 185). -/
  | navigateHome
  /-- `channel.unsubscribe()` — performed only by the effect cleanup
  (line 59), never by `endCall`. -/
  | channelUnsubscribe
deriving DecidableEq

/-- The state of one mounted Call component (one call session).

`localUserId` is `user?.id`, `receiverId` the route parameter, `callType` the
`type` search parameter (defaulting to video).  `acquiredTracks` is the
MediaStream returned by getUserMedia, when acquisition has succeeded.
`localVideoRefSet` records whether the local video element exists:
the component renders it only when `callType === 'video'` (line 225), and
line 74 attaches the stream to it only if the ref is set — so for audio-only
calls the stream is never reachable through `localVideoRef`.
`dataChannel` records whether `channelRef.current` is set, `navigated` whether
`navigate('/home')` has run. -/
structure CallState where
  localUserId : UserId
  receiverId : UserId
  callType : String
  isMuted : Bool
  isVideoEnabled : Bool
  isCallActive : Bool
  isConnecting : Bool
  permissionError : Option String
  acquiredTracks : Option (List MediaTrack)
  localVideoRefSet : Bool
  peerConnection : Option PeerConnection
  dataChannel : Bool
  navigated : Bool
deriving DecidableEq

/-- `localVideoRef.current?.srcObject` as read by toggleMute, toggleVideo and
endCall (lines 155, 165, 179): the acquired stream when the local video
element exists (video calls) and acquisition attached the stream to it
(line 74); null otherwise. -/
def CallState.srcObject (s : CallState) : Option (List MediaTrack) :=
  if s.localVideoRefSet then s.acquiredTracks else none

/-- The user-facing message `initializeCall` derives from the name of the
media-acquisition error (lines 122-130): three recognized names get specific
messages, everything else keeps the generic default. -/
def mediaErrorMessage (errorName : String) : String :=
  if errorName = "NotAllowedError" then
    "Please allow access to your camera and microphone to make calls."
  else if errorName = "NotFoundError" then
    "No camera or microphone found. Please check your device connections."
  else if errorName = "NotReadableError" then
    "Your camera or microphone is already in use by another application."
  else
    "Could not access camera or microphone."

/-- Outcome of the getUserMedia request, as seen by `initializeCall`. -/
inductive MediaResult
  | success
  | failure (errorName : String)
deriving DecidableEq

/-- A fresh audio track of an acquired stream. -/
def audioTrack : MediaTrack := { kind := TrackKind.audio, enabled := true, stopped := false }

/-- A fresh video track of an acquired stream. -/
def videoTrack : MediaTrack := { kind := TrackKind.video, enabled := true, stopped := false }

/-- The synchronous prefix of `initializeCall` (lines 64-72): clear
permissionError, then issue the getUserMedia request with
`audio: true, video: callType === 'video'`. -/
def initializeCallStart (s : CallState) : CallState × List Action :=
  ({ s with permissionError := none },
   [Action.requestMedia true (s.callType = "video")])

/-- The continuation of `initializeCall` after getUserMedia settles
(lines 72-133).  On success: the stream is attached to the local video element
when that element exists (line 74 guards on the ref, which is set only for
video calls), a peer connection is created with the tracks added, and the
data channel is created.  On failure: the error name is classified and
permissionError set; no stream, peer connection or data channel is created. -/
def initializeCallFinish (res : MediaResult) (s : CallState) : CallState × List Action :=
  match res with
  | MediaResult.success =>
      let tracks := if s.callType = "video" then [audioTrack, videoTrack] else [audioTrack]
      ({ s with acquiredTracks := some tracks,
                localVideoRefSet := s.callType = "video",
                peerConnection := some newPeerConnection,
                dataChannel := true }, [])
  | MediaResult.failure name =>
      ({ s with permissionError := some (mediaErrorMessage name) }, [])

/-- The whole of `initializeCall` for a given acquisition outcome. -/
def initializeCall (res : MediaResult) (s : CallState) : CallState × List Action :=
  let p := initializeCallStart s
  let q := initializeCallFinish res p.1
  (q.1, p.2 ++ q.2)

/-- `createOffer` (lines 136-152): return if the peer-connection ref is null;
otherwise create an offer, set it as local description and insert an offer row
addressed to the receiver.  On a closed peer connection the offer creation
rejects and the surrounding try/catch only logs, so nothing happens. -/
def createOffer (s : CallState) : CallState × List Action :=
  match s.peerConnection with
  | none => (s, [])
  | some pc =>
      if pc.closed then (s, [])
      else
        ({ s with peerConnection := some { pc with localDescription := some "offer-sdp" } },
         [Action.insertSignal
            { from_user := s.localUserId, to_user := s.receiverId,
              type := SignalType.offer, signal := "offer-sdp" }])

/-- `track.stop()` on a media track. -/
def stopTrack (t : MediaTrack) : MediaTrack := { t with stopped := true }

/-- `track.enabled = !track.enabled` for an audio track, the identity on the
others (toggleMute only iterates over getAudioTracks()). -/
def flipAudio (t : MediaTrack) : MediaTrack :=
  if t.kind = TrackKind.audio then { t with enabled := !t.enabled } else t

/-- `track.enabled = !track.enabled` for a video track, the identity on the
others (toggleVideo only iterates over getVideoTracks()). -/
def flipVideo (t : MediaTrack) : MediaTrack :=
  if t.kind = TrackKind.video then { t with enabled := !t.enabled } else t

/-- `endCall` (lines 174-186), the single teardown routine: send the end-call
notice whenever the data channel ref is set, stop every track of
`localVideoRef.current?.srcObject` when that is non-null, close the peer
connection, clear isCallActive and navigate home.  It does not unsubscribe the
presence channel (that happens only in the effect cleanup, line 59), does not
clear the data-channel or peer-connection refs, and does not touch
isConnecting or permissionError. -/
def endCall (s : CallState) : CallState × List Action :=
  let notice := if s.dataChannel then [Action.sendEndCallNotice] else []
  let s1 :=
    match s.srcObject with
    | some _ => { s with acquiredTracks := s.acquiredTracks.map (List.map stopTrack) }
    | none => s
  let s2 := { s1 with peerConnection := s1.peerConnection.map closePC,
                      isCallActive := false,
                      navigated := true }
  (s2, notice ++ [Action.navigateHome])

/-- `toggleMute` (lines 154-162): if `localVideoRef.current?.srcObject` is
non-null, flip `enabled` on each audio track of that stream and flip isMuted;
otherwise do nothing at all. -/
def toggleMute (s : CallState) : CallState :=
  match s.srcObject with
  | some _ =>
      { s with acquiredTracks := s.acquiredTracks.map (List.map flipAudio),
               isMuted := !s.isMuted }
  | none => s

/-- `toggleVideo` (lines 164-172): same shape as toggleMute, over the video
tracks and isVideoEnabled. -/
def toggleVideo (s : CallState) : CallState :=
  match s.srcObject with
  | some _ =>
      { s with acquiredTracks := s.acquiredTracks.map (List.map flipVideo),
               isVideoEnabled := !s.isVideoEnabled }
  | none => s

/-- The presence join handler (lines 47-52): if some new presence carries the
receiver's user_id, clear isConnecting and run createOffer. -/
def onPresenceJoin (newPresences : List UserId) (s : CallState) : CallState × List Action :=
  if newPresences.any (fun uid => uid = s.receiverId) then
    createOffer { s with isConnecting := false }
  else (s, [])

/-- The presence leave handler (lines 53-55): run endCall. -/
def onPresenceLeave (s : CallState) : CallState × List Action := endCall s

/-- The data-channel message handler (lines 111-116): run endCall on an
end-call message, ignore everything else. -/
def onDataMessage (t : DataMsgType) (s : CallState) : CallState × List Action :=
  match t with
  | DataMsgType.endCall => endCall s
  | DataMsgType.other _ => (s, [])

/-- `peerConnection.onicecandidate` (lines 98-107): when the event carries a
candidate, insert an ice-candidate row addressed to the receiver; the
null-candidate end-of-gathering event does nothing. -/
def onIceCandidate (c : Option String) (s : CallState) : CallState × List Action :=
  match c with
  | some cand =>
      (s, [Action.insertSignal
            { from_user := s.localUserId, to_user := s.receiverId,
              type := SignalType.iceCandidate, signal := cand }])
  | none => (s, [])

/-- `peerConnection.ontrack` (lines 89-95): the remote video element is always
rendered (line 217), so the ref is set and the handler records the call as
active and no longer connecting. -/
def onRemoteTrack (s : CallState) : CallState × List Action :=
  ({ s with isCallActive := true, isConnecting := false }, [])

/-- Delivery of a call_signals row addressed to the local user.  The component
installs no observer on the call_signals table: its only realtime subscription
is the presence channel (lines 45-56, presence join/leave events only — no
postgres_changes listener) and it never selects from call_signals.  Rows
inserted by the peer (offers, answers, ice-candidates) are therefore never
read, and their delivery has no effect on the component. -/
def onSignalRow (_ : SignalMessage) (s : CallState) : CallState × List Action :=
  (s, [])

/-- The hang-up button (line 274): `onClick={endCall}`. -/
def onHangUpClick (s : CallState) : CallState × List Action := endCall s

/-- The Try Again button of the permission-error screen (line 197):
`onClick={() => initializeCall()}`; its synchronous prefix clears the recorded
error and issues the media request. -/
def onRetryClick (s : CallState) : CallState × List Action := initializeCallStart s

/-- The effect cleanup (lines 58-61): unsubscribe the channel and close the
peer connection.  Runs on unmount, not as part of endCall. -/
def effectCleanup (s : CallState) : CallState × List Action :=
  ({ s with peerConnection := s.peerConnection.map closePC },
   [Action.channelUnsubscribe])

/-- Every event the mounted component can react to. -/
inductive Event
  | presenceJoin (newPresences : List UserId)
  | presenceLeave
  | dataMessage (t : DataMsgType)
  | localIceCandidate (c : Option String)
  | remoteTrack
  | signalRow (m : SignalMessage)
  | hangUpClick
  | retryClick
  | mediaAcquisition (res : MediaResult)
deriving DecidableEq

/-- Dispatch of one event to the handler the component installs for it. -/
def step (e : Event) (s : CallState) : CallState × List Action :=
  match e with
  | Event.presenceJoin ps => onPresenceJoin ps s
  | Event.presenceLeave => onPresenceLeave s
  | Event.dataMessage t => onDataMessage t s
  | Event.localIceCandidate c => onIceCandidate c s
  | Event.remoteTrack => onRemoteTrack s
  | Event.signalRow m => onSignalRow m s
  | Event.hangUpClick => onHangUpClick s
  | Event.retryClick => onRetryClick s
  | Event.mediaAcquisition res => initializeCallFinish res s

/-- The state of a freshly mounted component, from the useState initializers
(lines 20-24) and null refs: not muted, video enabled, not active, connecting,
no error, no stream, no peer connection, no data channel. -/
def initialState (localId remoteId ct : String) : CallState :=
  { localUserId := localId, receiverId := remoteId, callType := ct,
    isMuted := false, isVideoEnabled := true, isCallActive := false,
    isConnecting := true, permissionError := none,
    acquiredTracks := none, localVideoRefSet := false,
    peerConnection := none, dataChannel := false, navigated := false }

/-- A session that has acquired media and set up its peer connection and data
channel: the state after a successful initializeCall on a fresh mount. -/
def connectingState (localId remoteId ct : String) : CallState :=
  (initializeCall MediaResult.success (initialState localId remoteId ct)).1

/-- The presence channel key a coordinator uses (line 45): the template
literal call:receiverId passed to supabase.channel.  The local user's id does
not occur in it. -/
def coordinatorChannelKey (localId remoteId : UserId) : String :=
  let _ := localId
  "call:" ++ remoteId

/-- The calls the component makes on its presence channel at mount
(lines 46-56): install a join handler, install a leave handler, subscribe. -/
inductive ChannelOp
  | onJoin
  | onLeave
  | subscribe
  | track
deriving DecidableEq

/-- The channel operations actually performed by the component, in order
(lines 46-56).  There is no channel.track call: the component never announces
its own presence on the channel. -/
def callChannelOps : List ChannelOp :=
  [ChannelOp.onJoin, ChannelOp.onLeave, ChannelOp.subscribe]

/-- The presence announcements one coordinator makes: the realtime service
reports a participant as a presence join only after that participant tracks
itself on the channel, so a coordinator announces once per track operation it
performs, on the key it opened the channel with. -/
def announcedKeys (localId remoteId : UserId) : List String :=
  callChannelOps.filterMap (fun op =>
    if op = ChannelOp.track then some (coordinatorChannelKey localId remoteId) else none)

/-- The presence-join events the (local, remote) coordinator receives from its
peer in a two-party run: the peer (running the same component with the roles
swapped) produces a join for its announcements, and the event reaches this
coordinator exactly when it was announced on the key this coordinator
subscribed to. -/
def deliveredPeerJoins (localId remoteId : UserId) : List UserId :=
  if (announcedKeys remoteId localId).contains (coordinatorChannelKey localId remoteId)
  then [remoteId] else []

/-- Recognizer for an offer insert among a handler's emitted actions. -/
def isOfferInsert (a : Action) : Bool :=
  match a with
  | Action.insertSignal m =>
      match m.type with
      | SignalType.offer => true
      | _ => false
  | _ => false

/-- Recognizer for a getUserMedia request among a handler's emitted actions. -/
def isRequestMedia (a : Action) : Bool :=
  match a with
  | Action.requestMedia _ _ => true
  | _ => false

/-- Offers relayed by the (local, remote) coordinator in the modelled
two-party run: every join delivered to it is fed through the join handler from
its connecting state, and the resulting offer inserts are counted. -/
def offersRelayed (localId remoteId ct : String) : Nat :=
  ((deliveredPeerJoins localId remoteId).map (fun uid =>
    (onPresenceJoin [uid] (connectingState localId remoteId ct)).2.countP isOfferInsert)).sum

/-- Total number of offers relayed across the two coordinators of one call
between a and b. -/
def totalOffersRelayed (a b ct : String) : Nat :=
  offersRelayed a b ct + offersRelayed b a ct

/-- Whether an event is the settling of a pending getUserMedia request (the
continuation of an initializeCall that is already in flight). -/
def Event.isMediaSettle (e : Event) : Bool :=
  match e with
  | Event.mediaAcquisition _ => true
  | _ => false

/-- A concrete video-call session of alice with bob, in the Connecting state
(media acquired, peer connection and data channel set up). -/
def sConn : CallState := connectingState "alice" "bob" "video"

/-- A concrete audio-only session of alice with bob, in the Connecting
state. -/
def sAudioConn : CallState := connectingState "alice" "bob" "audio"

/-- The concrete video-call session after its teardown ran (hang-up from the
Connecting state): the Ended state of the session. -/
def sEnded : CallState := (endCall sConn).1

/-- The concrete session after getUserMedia failed with NotAllowedError: the
PermissionDenied state. -/
def sDenied : CallState :=
  (initializeCall (MediaResult.failure "NotAllowedError") (initialState "alice" "bob" "video")).1

lemma flipAudio_flipAudio (t : MediaTrack) : flipAudio (flipAudio t) = t := by
  cases t with
  | mk k e st => cases k <;> simp [flipAudio]

lemma flipVideo_flipVideo (t : MediaTrack) : flipVideo (flipVideo t) = t := by
  cases t with
  | mk k e st => cases k <;> simp [flipVideo]

lemma toggleMute_toggleMute (s : CallState) : toggleMute (toggleMute s) = s := by
  obtain ⟨lu, rid, ct, m, v, act, conn, perr, tracks, refSet, pc, dc, nav⟩ := s
  cases refSet <;> cases tracks <;>
    simp [toggleMute, CallState.srcObject, List.map_map, Function.comp_def,
          flipAudio_flipAudio]

lemma toggleVideo_toggleVideo (s : CallState) : toggleVideo (toggleVideo s) = s := by
  obtain ⟨lu, rid, ct, m, v, act, conn, perr, tracks, refSet, pc, dc, nav⟩ := s
  cases refSet <;> cases tracks <;>
    simp [toggleVideo, CallState.srcObject, List.map_map, Function.comp_def,
          flipVideo_flipVideo]

lemma toggleMute_noStream (s : CallState) (h : s.acquiredTracks = none) :
    toggleMute s = s := by
  simp [toggleMute, CallState.srcObject, h]

lemma toggleVideo_noStream (s : CallState) (h : s.acquiredTracks = none) :
    toggleVideo s = s := by
  simp [toggleVideo, CallState.srcObject, h]

/-- C10: with an acquired local stream, applying a toggle twice restores the
corresponding flag and every track's enabled state (the double application is
the identity on the whole session state); with no local stream, one toggle
already changes nothing. -/
theorem c10_toggles_involutive (s : CallState) :
    toggleMute (toggleMute s) = s ∧
    toggleVideo (toggleVideo s) = s ∧
    (s.acquiredTracks = none → toggleMute s = s ∧ toggleVideo s = s) :=
  ⟨toggleMute_toggleMute s, toggleVideo_toggleVideo s,
   fun h => ⟨toggleMute_noStream s h, toggleVideo_noStream s h⟩⟩

/-- Witness for C10 at concrete sessions: the video session with its acquired
stream, and a fresh session with no stream. -/
theorem c10_toggles_involutive_witness :
    toggleMute (toggleMute sConn) = sConn ∧
    toggleMute (initialState "alice" "bob" "video") = initialState "alice" "bob" "video" :=
  ⟨(c10_toggles_involutive sConn).1,
   ((c10_toggles_involutive (initialState "alice" "bob" "video")).2.2 rfl).1⟩

/-- C7 counterexample: the two coordinators of the pair (alice, bob) compute
different channel keys — the key is not an order-independent function of the
two participant identifiers. -/
theorem c7_channel_key_not_symmetric :
    coordinatorChannelKey "alice" "bob" ≠ coordinatorChannelKey "bob" "alice" := by
  decide

/-- C7 amended: the channel key is call: followed by the remote participant's
identifier only — it is deterministic and independent of the local
identifier, but the two coordinators of a pair compute the same key exactly
when the two identifiers coincide, so distinct participants subscribe to
different channels. -/
theorem c7_channel_key_remote_only :
    (∀ a c b : UserId, coordinatorChannelKey a b = coordinatorChannelKey c b) ∧
    (∀ a b : UserId, coordinatorChannelKey a b = coordinatorChannelKey b a ↔ b = a) := by
  constructor
  · intro a c b
    rfl
  · intro a b
    constructor
    · intro h
      have hd := congrArg String.data h
      simp only [coordinatorChannelKey, String.data_append] at hd
      exact String.ext (List.append_cancel_left hd)
    · intro h
      rw [h]

/-- Witness for C7 amended at the concrete pair (alice, bob). -/
theorem c7_channel_key_remote_only_witness :
    coordinatorChannelKey "alice" "bob" = coordinatorChannelKey "bob" "alice" ↔
      ("bob" : UserId) = "alice" :=
  c7_channel_key_remote_only.2 "alice" "bob"

/-- An offer from bob addressed to alice, as a call_signals row. -/
def offerFromBob : SignalMessage :=
  { from_user := "bob", to_user := "alice", type := SignalType.offer,
    signal := "offer-sdp-bob" }

/-- An ice-candidate from bob addressed to alice, as a call_signals row. -/
def iceFromBob : SignalMessage :=
  { from_user := "bob", to_user := "alice", type := SignalType.iceCandidate,
    signal := "candidate-bob-1" }

/-- C1: delivering an offer addressed to the local participant to a session in
the Connecting state leaves the session unchanged and produces no effect — the
component never reads call_signals, so no remote description is set and no
answer is created or relayed.  The final conjunct records that the remote
description is still unset afterwards. -/
theorem c1_incoming_offer_is_ignored :
    step (Event.signalRow offerFromBob) sConn = (sConn, []) ∧
    ((step (Event.signalRow offerFromBob) sConn).1.peerConnection.map
      PeerConnection.remoteDescription) = some none := by
  exact ⟨rfl, by decide⟩

/-- C2: in the Connecting state, a locally discovered ICE candidate is relayed
as an ice-candidate signal row (the first half of the claim holds), but a
received ice-candidate row is never applied to the peer connection — its
delivery leaves the session unchanged and produces no effect, because the
component never reads call_signals. -/
theorem c2_ice_relay_outbound_only :
    (step (Event.localIceCandidate (some "candidate-alice-1")) sConn).2 =
      [Action.insertSignal
        { from_user := "alice", to_user := "bob",
          type := SignalType.iceCandidate, signal := "candidate-alice-1" }] ∧
    step (Event.signalRow iceFromBob) sConn = (sConn, []) := by
  exact ⟨by decide, rfl⟩

/-- C3 counterexample: at the concrete Connecting session, the peer-initiated
end-call trigger still sends a termination notice (termination was not locally
initiated), no teardown path emits a channel unsubscription, and on the
audio-only session the hang-up exit path leaves the acquired audio track
unstopped — three violations of the claim as stated. -/
theorem c3_teardown_counterexample :
    (step (Event.dataMessage DataMsgType.endCall) sConn).2.contains
      Action.sendEndCallNotice = true ∧
    (step (Event.dataMessage DataMsgType.endCall) sConn).2.contains
      Action.channelUnsubscribe = false ∧
    (step Event.hangUpClick sConn).2.contains Action.channelUnsubscribe = false ∧
    (step Event.hangUpClick sAudioConn).1.acquiredTracks = some [audioTrack] ∧
    audioTrack.stopped = false := by
  exact ⟨by decide, by decide, by decide, by decide, rfl⟩

/-- C3 amended: the three termination triggers do converge on the same
teardown routine, endCall.  That routine stops every track of the stream
attached to the local video element (hence none in audio-only calls, where the
stream is never attached), closes the peer connection, navigates home, sends a
termination notice whenever the data channel exists — regardless of which side
initiated termination — and performs no presence/signaling unsubscription
(that happens only in the unmount cleanup). -/
theorem c3_teardown_amended (s : CallState) :
    onPresenceLeave s = endCall s ∧
    onDataMessage DataMsgType.endCall s = endCall s ∧
    onHangUpClick s = endCall s ∧
    ((endCall s).1.srcObject.getD []).all MediaTrack.stopped = true ∧
    ((endCall s).1.peerConnection.map PeerConnection.closed).getD true = true ∧
    (endCall s).2.contains Action.sendEndCallNotice = s.dataChannel ∧
    (endCall s).2.contains Action.channelUnsubscribe = false ∧
    (endCall s).2.contains Action.navigateHome = true := by
  obtain ⟨lu, rid, ct, m, v, act, conn, perr, tracks, refSet, pc, dc, nav⟩ := s
  refine ⟨rfl, rfl, rfl, ?_, ?_, ?_, ?_, ?_⟩ <;>
    cases refSet <;> cases tracks <;> cases dc <;> cases pc <;>
      simp [endCall, CallState.srcObject, closePC, stopTrack, onPresenceLeave,
            List.all_map, Function.comp_def]

/-- C4 counterexample: at the concrete Connecting session, invoking hang-up a
second time after a first hang-up sends the termination notice again — a
duplicate side effect the claim rules out. -/
theorem c4_second_hangup_duplicates_notice :
    (step Event.hangUpClick (step Event.hangUpClick sConn).1).2.contains
      Action.sendEndCallNotice = true := by
  decide

/-- C4 amended: teardown is idempotent on the session state — a second
hang-up, or a hang-up after the presence-leave trigger already ran the
routine, leaves the state exactly where the first teardown left it — but it is
not free of duplicate side effects: the second invocation emits the same
action list again, including a further termination-notice send when the data
channel exists. -/
theorem c4_teardown_state_idempotent_effects_duplicated (s : CallState) :
    (endCall (endCall s).1).1 = (endCall s).1 ∧
    (endCall (endCall s).1).2 = (endCall s).2 ∧
    (endCall (onPresenceLeave s).1).1 = (onPresenceLeave s).1 := by
  obtain ⟨lu, rid, ct, m, v, act, conn, perr, tracks, refSet, pc, dc, nav⟩ := s
  refine ⟨?_, ?_, ?_⟩ <;>
    cases refSet <;> cases tracks <;> cases dc <;> cases pc <;>
      simp [endCall, onPresenceLeave, CallState.srcObject, closePC, stopTrack,
            List.map_map, Function.comp_def]

/-- C5 counterexample: the session torn down from the Connecting state is in
the Ended state, yet a subsequently delivered presence-join callback naming
the remote participant changes the session state — it clears the connecting
flag — so post-teardown callbacks are not no-ops. -/
theorem c5_post_teardown_join_mutates_state :
    (step (Event.presenceJoin ["bob"]) sEnded).1 ≠ sEnded ∧
    sEnded.isConnecting = true ∧
    (step (Event.presenceJoin ["bob"]) sEnded).1.isConnecting = false := by
  exact ⟨by decide, by decide, by decide⟩

/-- C5 amended: after teardown the callbacks remain installed and perform no
session-liveness check: a presence-join naming the remote participant still
clears the connecting flag (the offer creation it attempts is stopped only by
the closed peer connection, not by a liveness guard), and the presence-leave
and peer end-call callbacks re-run the whole teardown routine. -/
theorem c5_post_teardown_callbacks_unguarded (s : CallState) (pc : PeerConnection)
    (hpc : s.peerConnection = some pc) (hclosed : pc.closed = true) :
    onPresenceJoin [s.receiverId] s = ({ s with isConnecting := false }, []) ∧
    onPresenceLeave s = endCall s ∧
    onDataMessage DataMsgType.endCall s = endCall s := by
  refine ⟨?_, rfl, rfl⟩
  simp [onPresenceJoin, createOffer, hpc, hclosed]

/-- Witness for C5 amended at the concrete torn-down session. -/
theorem c5_post_teardown_callbacks_unguarded_witness :
    onPresenceJoin [sEnded.receiverId] sEnded =
      ({ sEnded with isConnecting := false }, []) :=
  (c5_post_teardown_callbacks_unguarded sEnded
    { localDescription := none, remoteDescription := none, closed := true }
    (by decide) rfl).1

/-- C6 counterexample: a media-acquisition failure named AbortError is
surfaced with the generic fallback message, which is none of the three
recognized classifications — so not every failure is classified into
denied / device-not-found / device-busy. -/
theorem c6_unrecognized_error_gets_generic_message :
    mediaErrorMessage "AbortError" = "Could not access camera or microphone." ∧
    mediaErrorMessage "AbortError" ≠ mediaErrorMessage "NotAllowedError" ∧
    mediaErrorMessage "AbortError" ≠ mediaErrorMessage "NotFoundError" ∧
    mediaErrorMessage "AbortError" ≠ mediaErrorMessage "NotReadableError" := by
  exact ⟨rfl, by decide, by decide, by decide⟩

/-- C6 amended: the three recognized failure names map to three pairwise
distinct, stable user-facing messages, and every other failure name is
surfaced with the generic fallback message. -/
theorem c6_three_reasons_and_generic_fallback :
    (∀ n : String, n ≠ "NotAllowedError" → n ≠ "NotFoundError" →
      n ≠ "NotReadableError" →
      mediaErrorMessage n = "Could not access camera or microphone.") ∧
    mediaErrorMessage "NotAllowedError" ≠ mediaErrorMessage "NotFoundError" ∧
    mediaErrorMessage "NotAllowedError" ≠ mediaErrorMessage "NotReadableError" ∧
    mediaErrorMessage "NotFoundError" ≠ mediaErrorMessage "NotReadableError" := by
  refine ⟨?_, by decide, by decide, by decide⟩
  intro n h1 h2 h3
  simp [mediaErrorMessage, h1, h2, h3]

/-- Witness for C6 amended at the concrete unrecognized name SecurityError. -/
theorem c6_three_reasons_and_generic_fallback_witness :
    mediaErrorMessage "SecurityError" = "Could not access camera or microphone." :=
  c6_three_reasons_and_generic_fallback.1 "SecurityError"
    (by decide) (by decide) (by decide)

lemma createOffer_permissionError (s : CallState) :
    (createOffer s).1.permissionError = s.permissionError := by
  cases h : s.peerConnection with
  | none => simp [createOffer, h]
  | some pc => by_cases hc : pc.closed <;> simp [createOffer, h, hc]

lemma createOffer_no_media_request (s : CallState) :
    (createOffer s).2.countP isRequestMedia = 0 := by
  cases h : s.peerConnection with
  | none => simp [createOffer, h]
  | some pc => by_cases hc : pc.closed <;> simp [createOffer, h, hc, isRequestMedia]

lemma endCall_permissionError (s : CallState) :
    (endCall s).1.permissionError = s.permissionError := by
  cases h : s.srcObject with
  | none => simp [endCall, h]
  | some ts => simp [endCall, h]

lemma endCall_no_media_request (s : CallState) :
    (endCall s).2.countP isRequestMedia = 0 := by
  by_cases hdc : s.dataChannel <;>
    cases h : s.srcObject <;>
      simp [endCall, h, hdc, isRequestMedia]

/-- C9: in a session whose media acquisition failed (PermissionDenied: a
failure message is recorded), the explicit user retry clears the recorded
failure and issues exactly one new media request, and no other event — every
presence, signaling, data-channel, track or hang-up callback — clears the
recorded failure or issues a media request: the only way out of
PermissionDenied is the explicit retry, which re-enters Acquiring. -/
theorem c9_permission_denied_terminal_with_retry (s : CallState) (msg : String)
    (h : s.permissionError = some msg) :
    (step Event.retryClick s).1.permissionError = none ∧
    (step Event.retryClick s).2 = [Action.requestMedia true (s.callType = "video")] ∧
    (∀ e : Event, e ≠ Event.retryClick → e.isMediaSettle = false →
      (step e s).1.permissionError = some msg ∧
      (step e s).2.countP isRequestMedia = 0) := by
  refine ⟨rfl, rfl, ?_⟩
  intro e hne hnm
  cases e with
  | presenceJoin ps =>
      by_cases hAny : ps.any (fun uid => uid = s.receiverId) <;>
        simp [step, onPresenceJoin, hAny, createOffer_permissionError,
              createOffer_no_media_request, h]
  | presenceLeave =>
      simp [step, onPresenceLeave, endCall_permissionError,
            endCall_no_media_request, h]
  | dataMessage t =>
      cases t with
      | endCall =>
          simp [step, onDataMessage, endCall_permissionError,
                endCall_no_media_request, h]
      | other tt => simp [step, onDataMessage, h]
  | localIceCandidate c =>
      cases c <;> simp [step, onIceCandidate, isRequestMedia, h]
  | remoteTrack => simp [step, onRemoteTrack, h]
  | signalRow m => simp [step, onSignalRow, h]
  | hangUpClick =>
      simp [step, onHangUpClick, endCall_permissionError,
            endCall_no_media_request, h]
  | retryClick => exact absurd rfl hne
  | mediaAcquisition res => simp [Event.isMediaSettle] at hnm

/-- Witness for C9 at the concrete denied session: retry clears the recorded
failure, while a presence-leave callback leaves it in place. -/
theorem c9_permission_denied_terminal_with_retry_witness :
    (step Event.retryClick sDenied).1.permissionError = none ∧
    (step Event.presenceLeave sDenied).1.permissionError =
      some "Please allow access to your camera and microphone to make calls." := by
  have h := c9_permission_denied_terminal_with_retry sDenied
    "Please allow access to your camera and microphone to make calls." (by decide)
  exact ⟨h.1, (h.2.2 Event.presenceLeave (by decide) rfl).1⟩

/-- C8: in the modelled two-party run, zero offers are relayed, for every pair
of participants and call kind — not exactly one.  Neither coordinator ever
receives a qualifying presence join: the component never announces its own
presence (callChannelOps contains no track operation) and, independently, the
two sides subscribe with different keys. -/
theorem c8_no_offer_is_ever_created (a b ct : String) :
    totalOffersRelayed a b ct = 0 := by
  simp [totalOffersRelayed, offersRelayed, deliveredPeerJoins, announcedKeys,
        callChannelOps]

end ManBoldHelp
